import Mathlib

/-!
Verification development for the Eltako custom components
(time-based cover controller, actuator pulse, switch listeners,
configuration resolution).

Stateful Python classes are embedded as explicit state records; the service
calls issued by a command are collected as a trace list; Python exceptions
are embedded with `Except`.  The `TravelCalculator` comes from the external
xknx library (it is not part of this repository's sources), so it is
modelled from the specification, as noted on each of its operations.
-/

namespace Eltako

/-- Travel direction of a `TravelCalculator` (xknx `TravelStatus`):
`up` and `down` while traveling, `stop` when idle. -/
inductive TravelDirection where
  | up
  | down
  | stop
deriving DecidableEq

/-- Modelled from the spec: the time-based travel estimator
(`TravelEstimator`, realised by the external xknx `TravelCalculator`).
Positions are rationals in [0, 100] (internal convention: 0 = fully
retracted/open, 100 = fully extended/closed); times and durations are
rationals (seconds).  `position` is the frozen position while idle;
`start_time`/`start_position` are captured when travel begins;
`target_position` is set only for travel toward an explicit target. -/
structure TravelCalculator where
  travel_time_up : ℚ
  travel_time_down : ℚ
  position : ℚ
  direction : TravelDirection
  start_time : Option ℚ
  start_position : ℚ
  target_position : Option ℚ
deriving DecidableEq

/-- Clamp a position into [0, 100]. -/
def clampPosition (p : ℚ) : ℚ := max 0 (min 100 p)

/-- Modelled from the spec: a fresh estimator with the given durations is
idle at its zero-value default position 0. -/
def TravelCalculator.mkCalc (time_up time_down : ℚ) : TravelCalculator :=
  { travel_time_up := time_up
    travel_time_down := time_down
    position := 0
    direction := TravelDirection.stop
    start_time := none
    start_position := 0
    target_position := none }

/-- Modelled from the spec: `is_traveling()` holds iff the direction is not
`stop`. -/
def TravelCalculator.is_traveling (tc : TravelCalculator) : Bool :=
  tc.direction != TravelDirection.stop

/-- Modelled from the spec: `current_position()`.  Idle: the frozen
`position`.  Traveling: linear interpolation of the elapsed time over the
direction's travel duration (a zero duration counts as instantaneous
completion), clamped to [0, 100] and additionally clamped at
`target_position` when one is set. -/
def TravelCalculator.current_position (tc : TravelCalculator) (now : ℚ) : ℚ :=
  if tc.direction = TravelDirection.stop then
    tc.position
  else
    let tt := if tc.direction = TravelDirection.up then
                tc.travel_time_up
              else
                tc.travel_time_down
    let st := tc.start_time.getD now
    let elapsed := now - st
    let fraction := if tt = 0 then 1 else elapsed / tt
    let delta := fraction * 100
    let raw := if tc.direction = TravelDirection.up then
                 tc.start_position - delta
               else
                 tc.start_position + delta
    let clamped := clampPosition raw
    match tc.target_position with
    | none => clamped
    | some tgt =>
      if tc.direction = TravelDirection.up then max clamped tgt
      else min clamped tgt

/-- Modelled from the spec: `set_position(p)` acts only while idle (it is
ignored while traveling) and stores the clamped position. -/
def TravelCalculator.set_position (tc : TravelCalculator) (p : ℚ) : TravelCalculator :=
  if tc.direction = TravelDirection.stop then
    { tc with position := clampPosition p }
  else
    tc

/-- Modelled from the spec: `start_travel_up()` begins travel toward 0. -/
def TravelCalculator.start_travel_up (tc : TravelCalculator) (now : ℚ) : TravelCalculator :=
  { tc with
    direction := TravelDirection.up
    start_time := some now
    start_position := tc.current_position now
    target_position := none }

/-- Modelled from the spec: `start_travel_down()` begins travel toward 100. -/
def TravelCalculator.start_travel_down (tc : TravelCalculator) (now : ℚ) : TravelCalculator :=
  { tc with
    direction := TravelDirection.down
    start_time := some now
    start_position := tc.current_position now
    target_position := none }

/-- Modelled from the spec: `start_travel(target)` derives the direction by
comparing the target with the current position (up if smaller, down if
larger, no-op if equal) and records the target. -/
def TravelCalculator.start_travel (tc : TravelCalculator) (target : ℚ) (now : ℚ) : TravelCalculator :=
  let cur := tc.current_position now
  if target < cur then
    { tc with
      direction := TravelDirection.up
      start_time := some now
      start_position := cur
      target_position := some target }
  else if cur < target then
    { tc with
      direction := TravelDirection.down
      start_time := some now
      start_position := cur
      target_position := some target }
  else
    tc

/-- Modelled from the spec: `stop()` freezes the current computed position
and clears direction, start time and target. -/
def TravelCalculator.stopCalc (tc : TravelCalculator) (now : ℚ) : TravelCalculator :=
  { tc with
    position := tc.current_position now
    direction := TravelDirection.stop
    start_time := none
    target_position := none }

/-- Modelled from the spec: `position_reached()` holds when idle, or when
the current position equals 0, 100 or the recorded target. -/
def TravelCalculator.position_reached (tc : TravelCalculator) (now : ℚ) : Bool :=
  if tc.is_traveling then
    let cp := tc.current_position now
    cp == 0 || cp == 100 ||
      (match tc.target_position with
       | some tgt => cp == tgt
       | none => false)
  else
    true

/-- Modelled from the spec: `is_closed()` holds when the current position is
at the fully-extended extreme 100 (internal convention: 100 = closed). -/
def TravelCalculator.is_closed (tc : TravelCalculator) (now : ℚ) : Bool :=
  tc.current_position now == 100

/-- A Home Assistant entity registry entry (`RegistryEntry`), reduced to the
fields the integration reads: its entity id and its domain. -/
structure RegistryEntry where
  entity_id : String
  domain : String
deriving DecidableEq

/-- The entity registry, as a lookup table from entity id to entry
(`EntityRegistry.async_get`). -/
abbrev Registry := List (String × RegistryEntry)

/-- Python exceptions raised by the embedded code:
`NoEntitySpecifiedError` from `entity_registry.from_entity_id`, and
`AttributeError` from reading a never-assigned instance attribute. -/
inductive PyError where
  | noEntitySpecified
  | attributeError
deriving DecidableEq

instance {ε α : Type} [DecidableEq ε] [DecidableEq α] : DecidableEq (Except ε α) := fun x y =>
  match x, y with
  | Except.ok a, Except.ok b =>
    if h : a = b then isTrue (by rw [h]) else
      isFalse (by intro he; cases he; exact h rfl)
  | Except.error e, Except.error f =>
    if h : e = f then isTrue (by rw [h]) else
      isFalse (by intro he; cases he; exact h rfl)
  | Except.ok _, Except.error _ => isFalse (by intro he; cases he)
  | Except.error _, Except.ok _ => isFalse (by intro he; cases he)

/-- `EntityRegistry.async_get`: look an entity id up in the registry. -/
def Registry.asyncGet (reg : Registry) (entity_id : String) : Option RegistryEntry :=
  (reg.find? (fun p => p.1 == entity_id)).map (fun p => p.2)

/-- `entity_registry.from_entity_id`: resolve one entity id, raising
`NoEntitySpecifiedError` when the registry has no entry for it. -/
def from_entity_id (reg : Registry) (entity_id : String) : Except PyError RegistryEntry :=
  match reg.asyncGet entity_id with
  | some entry => Except.ok entry
  | none => Except.error PyError.noEntitySpecified

/-- `entity_registry.from_entity_ids`: resolve a list of entity ids in
order; the first failure propagates. -/
def from_entity_ids (reg : Registry) : List String → Except PyError (List RegistryEntry)
  | [] => Except.ok []
  | entity_id :: rest =>
    match from_entity_id reg entity_id with
    | Except.error e => Except.error e
    | Except.ok entry =>
      match from_entity_ids reg rest with
      | Except.error e => Except.error e
      | Except.ok entries => Except.ok (entry :: entries)

/-- `switch_user.ButtonOption`: the four selector values a virtual switch
can assert. -/
inductive ButtonOption where
  | AO
  | AI
  | BO
  | BI
deriving DecidableEq

/-- `str(action)` on the `ButtonOption` StrEnum: its string value. -/
def ButtonOption.toStr : ButtonOption → String
  | ButtonOption.AO => "AO"
  | ButtonOption.AI => "AI"
  | ButtonOption.BO => "BO"
  | ButtonOption.BI => "BI"

/-- `switch_user.SwitchUserData`: the resolved selector entry together with
the two configured actions. -/
structure SwitchUserData where
  entry : RegistryEntry
  off_action : ButtonOption
  on_action : ButtonOption
deriving DecidableEq

/-- The validated `SWITCH_SCHEMA` configuration of a virtual switch: the
selector entity id and the two options configured under the keys
`CONF_SWITCH_OPTION_UP` and `CONF_SWITCH_OPTION_DOWN`. -/
structure SwitchConfig where
  switch_id : String
  option_up : ButtonOption
  option_down : ButtonOption
deriving DecidableEq

/-- `switch_user.from_switch_config`: resolves the selector entity and binds
`off_action` to the configured down option and `on_action` to the
configured up option. -/
def from_switch_config (reg : Registry) (cfg : SwitchConfig) : Except PyError SwitchUserData :=
  match from_entity_id reg cfg.switch_id with
  | Except.error e => Except.error e
  | Except.ok entry =>
    Except.ok
      { entry := entry
        off_action := cfg.option_down
        on_action := cfg.option_up }

/-- One `hass.services.async_call` as issued by `SwitchUser._push_switch`:
the target domain, the service name, the selected option and the target
entity id. -/
structure ServiceCall where
  domain : String
  service : String
  option : String
  entity_id : String
deriving DecidableEq

/-- One `select_option` call of `_push_switch` on the bound selector. -/
def selectCall (d : SwitchUserData) (opt : String) : ServiceCall :=
  { domain := d.entry.domain
    service := "select_option"
    option := opt
    entity_id := d.entry.entity_id }

/-- `SwitchUser._push_switch`: the three awaited `select_option` calls, in
issue order: neutral, the given action's value, neutral. -/
def pushSwitch (d : SwitchUserData) (action : ButtonOption) : List ServiceCall :=
  [selectCall d "None", selectCall d action.toStr, selectCall d "None"]

/-- `SwitchUser.push_on`: pulse the configured `on_action`. -/
def pushOn (d : SwitchUserData) : List ServiceCall :=
  pushSwitch d d.on_action

/-- `SwitchUser.push_off`: pulse the configured `off_action`. -/
def pushOff (d : SwitchUserData) : List ServiceCall :=
  pushSwitch d d.off_action

/-- `switch_listener.SwitchPosition`: the rocker position selector. -/
inductive SwitchPosition where
  | left
  | right
deriving DecidableEq

/-- `switch_listener.ActionType`: the logical action an entity stands for. -/
inductive ActionType where
  | on
  | off
deriving DecidableEq

/-- `switch_listener.to_action_code`: the single-letter action code, `o` for
on and `i` for off, swapped when the inversion flag is set. -/
def to_action_code (action : ActionType) (inverted : Bool) : String :=
  if !inverted then
    match action with
    | ActionType.off => "i"
    | ActionType.on => "o"
  else
    match action with
    | ActionType.off => "o"
    | ActionType.on => "i"

/-- `switch_listener.to_entity_id`: the synthesized listener entity id
`binary_sensor.<device_id>_<position_code><action_code>_pressed` with
position code `a` for left and `b` for right. -/
def to_entity_id (device_id : String) (action : ActionType)
    (position : SwitchPosition) (inverted : Bool) : String :=
  let position_code := if position = SwitchPosition.left then "a" else "b"
  let action_code := to_action_code action inverted
  "binary_sensor." ++ device_id ++ "_" ++ position_code ++ action_code ++ "_pressed"

/-- One entry of the validated `SWITCH_LISTENER_SCHEMA`: a switch position
and an inversion flag. -/
structure SwitchListenerDeviceConfig where
  position : SwitchPosition
  inverted : Bool
deriving DecidableEq

/-- `switch_listener.to_entity_pair`: the (on, off) pair of synthesized
entity ids for one configured switch. -/
def to_entity_pair (device_id : String) (cfg : SwitchListenerDeviceConfig) : String × String :=
  (to_entity_id device_id ActionType.on cfg.position cfg.inverted,
   to_entity_id device_id ActionType.off cfg.position cfg.inverted)

/-- `switch_listener.SwitchListenerData`: the resolved on-set and off-set of
registry entries. -/
structure SwitchListenerData where
  on_entries : List RegistryEntry
  off_entries : List RegistryEntry
deriving DecidableEq

/-- `switch_listener.from_switch_listener_config`: synthesize the entity
pairs for all configured switches and resolve the on ids and the off ids. -/
def from_switch_listener_config (reg : Registry)
    (cfg : List (String × SwitchListenerDeviceConfig)) : Except PyError SwitchListenerData :=
  let pairs := cfg.map (fun p => to_entity_pair p.1 p.2)
  match from_entity_ids reg (pairs.map (fun p => p.1)) with
  | Except.error e => Except.error e
  | Except.ok on_entries =>
    match from_entity_ids reg (pairs.map (fun p => p.2)) with
    | Except.error e => Except.error e
    | Except.ok off_entries =>
      Except.ok { on_entries := on_entries, off_entries := off_entries }

/-- A state object delivered with a state-change notification (`State`):
the transitioning entity's id and its new state value. -/
structure EntityState where
  entity_id : String
  state : String
deriving DecidableEq

/-- `SwitchListener._to_entity_ids`: the entity ids of a list of entries. -/
def toEntityIds (entries : List RegistryEntry) : List String :=
  entries.map (fun entry => entry.entity_id)

/-- `SwitchListener._state_changed_for_entities`: the transitioning entity
belongs to the given entries and the new state value is exactly `on`. -/
def stateChangedForEntities (new_state : EntityState) (entries : List RegistryEntry) : Bool :=
  (toEntityIds entries).contains new_state.entity_id && new_state.state == "on"

/-- Whether the on/off callbacks of a `SwitchListener` have been wired
(they are `None` until `async_added_to_hass` stores them). -/
structure ListenerCallbacks where
  onSet : Bool
  offSet : Bool
deriving DecidableEq

/-- `SwitchListener.switch_state_change_listener`: which callbacks fire for
one notification.  The first component is true iff the on-callback is
invoked, the second iff the off-callback is invoked; a missing new state
invokes neither. -/
def switchStateChangeListener (d : SwitchListenerData) (cb : ListenerCallbacks)
    (new_state : Option EntityState) : Bool × Bool :=
  match new_state with
  | none => (false, false)
  | some st =>
    (stateChangedForEntities st d.on_entries && cb.onSet,
     stateChangedForEntities st d.off_entries && cb.offSet)

/-- `cover.TimeData`: up and down travel durations in seconds. -/
structure TimeData where
  up : ℚ
  down : ℚ
deriving DecidableEq

/-- `cover.CoverCommand`: the command tag handled by the cover. -/
inductive CoverCommand where
  | open_cover
  | close_cover
  | stop_cover
deriving DecidableEq

/-- The mutable state of an `EltakoCoverTimeBased` entity, together with
the scheduler facts its tick-loop subscription lives in:
`unsub` is `self._unsubscribe_auto_updater` (the handle of the active
subscription, if any), `nextHandle`/`liveSubs` track the subscriptions
created by `async_track_time_interval` and not yet cancelled, and
`lastToggleOpen` is the instance attribute
`self._cover_is_last_toggle_direction_open` — `none` while the attribute
has never been assigned, in which case reading it raises
`AttributeError`. -/
structure CoverState where
  travel_calc : TravelCalculator
  tilt_calc : Option TravelCalculator
  unsub : Option Nat
  nextHandle : Nat
  liveSubs : List Nat
  lastToggleOpen : Option Bool
  switch_user : SwitchUserData
deriving DecidableEq

/-- `EltakoCoverTimeBased.__init__`: both calculators fresh, no active
subscription, and the last-toggle attribute never assigned. -/
def mkEltakoCover (sud : SwitchUserData) (traveling : TimeData)
    (tilting : Option TimeData) : CoverState :=
  { travel_calc := TravelCalculator.mkCalc traveling.up traveling.down
    tilt_calc := tilting.map (fun td => TravelCalculator.mkCalc td.up td.down)
    unsub := none
    nextHandle := 0
    liveSubs := []
    lastToggleOpen := none
    switch_user := sud }

/-- `EltakoCoverTimeBased._has_tilt_support`. -/
def CoverState.hasTiltSupport (s : CoverState) : Bool :=
  s.tilt_calc.isSome

/-- `EltakoCoverTimeBased.start_auto_updater`: arm the tick loop only when
no subscription is active; a fresh handle is registered as live. -/
def startAutoUpdater (s : CoverState) : CoverState :=
  match s.unsub with
  | none =>
    { s with
      unsub := some s.nextHandle
      nextHandle := s.nextHandle + 1
      liveSubs := s.nextHandle :: s.liveSubs }
  | some _ => s

/-- `EltakoCoverTimeBased.stop_auto_updater`: cancel the active
subscription when there is one (removing it from the live set) and clear
the handle; a no-op otherwise. -/
def stopAutoUpdater (s : CoverState) : CoverState :=
  match s.unsub with
  | some h => { s with unsub := none, liveSubs := s.liveSubs.erase h }
  | none => s

/-- `EltakoCoverTimeBased._update_tilt_before_travel`: with tilt support,
set the tilt estimator directly to 0 for an open command and to 100 for a
close command. -/
def updateTiltBeforeTravel (cmd : CoverCommand) (s : CoverState) : CoverState :=
  match s.tilt_calc with
  | none => s
  | some t =>
    match cmd with
    | CoverCommand.open_cover => { s with tilt_calc := some (t.set_position 0) }
    | CoverCommand.close_cover => { s with tilt_calc := some (t.set_position 100) }
    | CoverCommand.stop_cover => s

/-- The first block of `EltakoCoverTimeBased._handle_stop`: stop main
travel and cancel the tick loop when main travel is in progress. -/
def stopTravelPart (s : CoverState) (now : ℚ) : CoverState :=
  if s.travel_calc.is_traveling then
    stopAutoUpdater { s with travel_calc := s.travel_calc.stopCalc now }
  else
    s

/-- The second block of `EltakoCoverTimeBased._handle_stop`: with tilt
support and a traveling tilt estimator, stop it and cancel the tick
loop. -/
def stopTiltPart (s : CoverState) (now : ℚ) : CoverState :=
  match s.tilt_calc with
  | some t =>
    if t.is_traveling then
      stopAutoUpdater { s with tilt_calc := some (t.stopCalc now) }
    else
      s
  | none => s

/-- `EltakoCoverTimeBased._handle_stop`: stop main travel and cancel the
tick loop when main travel is in progress; independently do the same for a
traveling tilt estimator. -/
def handleStop (s : CoverState) (now : ℚ) : CoverState :=
  stopTiltPart (stopTravelPart s now) now

/-- `EltakoCoverTimeBased._async_handle_command`: close pushes on, open
pushes off; stop reads `self._cover_is_last_toggle_direction_open` (an
`AttributeError` when the attribute was never assigned) and pushes on when
it is false, off when it is true. -/
def asyncHandleCommand (s : CoverState) (cmd : CoverCommand) : Except PyError (List ServiceCall) :=
  match cmd with
  | CoverCommand.close_cover => Except.ok (pushOn s.switch_user)
  | CoverCommand.open_cover => Except.ok (pushOff s.switch_user)
  | CoverCommand.stop_cover =>
    match s.lastToggleOpen with
    | none => Except.error PyError.attributeError
    | some is_last_open =>
      Except.ok
        ((if !is_last_open then pushOn s.switch_user else []) ++
         (if is_last_open then pushOff s.switch_user else []))

/-- `EltakoCoverTimeBased.is_opening`: main travel traveling up, or tilt
configured and traveling up. -/
def CoverState.isOpening (s : CoverState) : Bool :=
  (s.travel_calc.is_traveling && s.travel_calc.direction == TravelDirection.up) ||
    (match s.tilt_calc with
     | some t => t.is_traveling && t.direction == TravelDirection.up
     | none => false)

/-- `EltakoCoverTimeBased.is_closing`: main travel traveling down, or tilt
configured and traveling down. -/
def CoverState.isClosing (s : CoverState) : Bool :=
  (s.travel_calc.is_traveling && s.travel_calc.direction == TravelDirection.down) ||
    (match s.tilt_calc with
     | some t => t.is_traveling && t.direction == TravelDirection.down
     | none => false)

/-- The Home Assistant cover states relevant to the dispatch in
`on_switch_on` / `on_switch_off`. -/
inductive HaCoverState where
  | opening
  | closing
  | closed
  | opened
deriving DecidableEq

/-- The `state` property a `CoverEntity` derives from `is_opening`,
`is_closing` and `is_closed` (`STATE_OPEN` covers every idle position that
is not fully closed). -/
def coverHaState (s : CoverState) (now : ℚ) : HaCoverState :=
  if s.isOpening then HaCoverState.opening
  else if s.isClosing then HaCoverState.closing
  else if s.travel_calc.is_closed now then HaCoverState.closed
  else HaCoverState.opened

/-- `EltakoCoverTimeBased.current_cover_position`: the user-facing position
`100 - internal`. -/
def currentCoverPosition (s : CoverState) (now : ℚ) : Option ℚ :=
  some (100 - s.travel_calc.current_position now)

/-- `EltakoCoverTimeBased.current_cover_tilt_position`: with tilt support,
the computed tilt position is tested for truthiness, so an internal tilt
position of exactly 0 yields `None`; any other value yields
`100 - internal`. -/
def currentCoverTiltPosition (s : CoverState) (now : ℚ) : Option ℚ :=
  match s.tilt_calc with
  | some t =>
    let p := t.current_position now
    if p = 0 then none else some (100 - p)
  | none => none

/-- `EltakoCoverTimeBased.on_switch_on`: closing is treated as stop; from
the opening or open state start downward travel, arm the tick loop and
apply the close tilt pre-adjustment; otherwise do nothing. -/
def onSwitchOn (s : CoverState) (now : ℚ) : CoverState :=
  if coverHaState s now = HaCoverState.closing then
    handleStop s now
  else if coverHaState s now = HaCoverState.opening ∨
      coverHaState s now = HaCoverState.opened then
    updateTiltBeforeTravel CoverCommand.close_cover
      (startAutoUpdater { s with travel_calc := s.travel_calc.start_travel_down now })
  else
    s

/-- `EltakoCoverTimeBased.on_switch_off`: opening is treated as stop; from
closing, closed, or open-with-position-below-100 start upward travel, arm
the tick loop and apply the open tilt pre-adjustment; otherwise do
nothing. -/
def onSwitchOff (s : CoverState) (now : ℚ) : CoverState :=
  if coverHaState s now = HaCoverState.opening then
    handleStop s now
  else if (coverHaState s now == HaCoverState.closing) ||
      (coverHaState s now == HaCoverState.closed) ||
      ((coverHaState s now == HaCoverState.opened) &&
        (match currentCoverPosition s now with
         | some cp => decide (cp < 100)
         | none => false)) then
    updateTiltBeforeTravel CoverCommand.open_cover
      (startAutoUpdater { s with travel_calc := s.travel_calc.start_travel_up now })
  else
    s

/-- `EltakoCoverTimeBased.async_open_cover`: act only when the internal
travel position is above 0 — start upward travel, arm the tick loop, apply
the open tilt pre-adjustment and issue the open command's pulse. -/
def asyncOpenCover (s : CoverState) (now : ℚ) : Except PyError (CoverState × List ServiceCall) :=
  let cp := s.travel_calc.current_position now
  if 0 < cp then
    let s1 := updateTiltBeforeTravel CoverCommand.open_cover
      (startAutoUpdater { s with travel_calc := s.travel_calc.start_travel_up now })
    match asyncHandleCommand s1 CoverCommand.open_cover with
    | Except.error e => Except.error e
    | Except.ok calls => Except.ok (s1, calls)
  else
    Except.ok (s, [])

/-- `EltakoCoverTimeBased.async_close_cover`: act only when the internal
travel position is below 100 — start downward travel, arm the tick loop,
apply the close tilt pre-adjustment and issue the close command's pulse. -/
def asyncCloseCover (s : CoverState) (now : ℚ) : Except PyError (CoverState × List ServiceCall) :=
  let cp := s.travel_calc.current_position now
  if cp < 100 then
    let s1 := updateTiltBeforeTravel CoverCommand.close_cover
      (startAutoUpdater { s with travel_calc := s.travel_calc.start_travel_down now })
    match asyncHandleCommand s1 CoverCommand.close_cover with
    | Except.error e => Except.error e
    | Except.ok calls => Except.ok (s1, calls)
  else
    Except.ok (s, [])

/-- `EltakoCoverTimeBased.async_stop_cover`: first await the stop command's
pulse dispatch, then handle the estimator stop.  An exception in the
command dispatch propagates before `_handle_stop` runs. -/
def asyncStopCover (s : CoverState) (now : ℚ) : Except PyError (CoverState × List ServiceCall) :=
  match asyncHandleCommand s CoverCommand.stop_cover with
  | Except.error e => Except.error e
  | Except.ok calls => Except.ok (handleStop s now, calls)

/-- `cover.CoverEntityFeature` flags assembled by `supported_features`. -/
inductive CoverFeature where
  | OPEN
  | CLOSE
  | STOP
  | SET_POSITION
  | OPEN_TILT
  | CLOSE_TILT
  | STOP_TILT
  | SET_TILT_POSITION
deriving DecidableEq

/-- `EltakoCoverTimeBased.supported_features`: open/close/stop always;
set-position when a cover position is available; with tilt support the
three tilt commands, and set-tilt-position only when a tilt position is
available. -/
def supportedFeatures (s : CoverState) (now : ℚ) : List CoverFeature :=
  let base := [CoverFeature.OPEN, CoverFeature.CLOSE, CoverFeature.STOP]
  let base :=
    match currentCoverPosition s now with
    | some _ => base ++ [CoverFeature.SET_POSITION]
    | none => base
  if s.hasTiltSupport then
    let base := base ++ [CoverFeature.OPEN_TILT, CoverFeature.CLOSE_TILT, CoverFeature.STOP_TILT]
    match currentCoverTiltPosition s now with
    | some _ => base ++ [CoverFeature.SET_TILT_POSITION]
    | none => base
  else
    base

/-- A start or stop invocation on the auto-updater. -/
inductive SubOp where
  | start
  | stop
deriving DecidableEq

/-- Apply a sequence of `start_auto_updater` / `stop_auto_updater` calls in
order. -/
def applySubOps (s : CoverState) : List SubOp → CoverState
  | [] => s
  | op :: rest =>
    applySubOps
      (match op with
       | SubOp.start => startAutoUpdater s
       | SubOp.stop => stopAutoUpdater s)
      rest

/-- The tick-loop subscription invariant: the live subscriptions are
exactly the one recorded in `unsub`, when there is one. -/
def SubsInv (s : CoverState) : Prop :=
  s.liveSubs = (match s.unsub with
                | some h => [h]
                | none => [])

instance (s : CoverState) : Decidable (SubsInv s) := by
  unfold SubsInv; infer_instance

/-- `config.from_config_or_none`: call the platform's `from_config`,
converting a `NoEntitySpecifiedError` into `None`; any other exception
propagates. -/
def from_config_or_none {C E : Type} (f : Registry → String → C → Except PyError E)
    (reg : Registry) (device_id : String) (cfg : C) : Except PyError (Option E) :=
  match f reg device_id cfg with
  | Except.ok e => Except.ok (some e)
  | Except.error PyError.noEntitySpecified => Except.ok none
  | Except.error e => Except.error e

/-- `config.devices_from_config` (used by the cover and switch platforms):
build each device through `from_config_or_none`, keeping only the devices
whose resolution succeeded. -/
def devices_from_config {C E : Type} (f : Registry → String → C → Except PyError E)
    (reg : Registry) : List (String × C) → Except PyError (List E)
  | [] => Except.ok []
  | (device_id, cfg) :: rest =>
    match from_config_or_none f reg device_id cfg with
    | Except.error e => Except.error e
    | Except.ok entity? =>
      match devices_from_config f reg rest with
      | Except.error e => Except.error e
      | Except.ok entities =>
        Except.ok
          (match entity? with
           | some entity => entity :: entities
           | none => entities)

/-- The validated `TRIGGERS_LISTENER_SCHEMA`: explicit on and off trigger
entity id lists. -/
structure TriggerConfig where
  on_ids : List String
  off_ids : List String
deriving DecidableEq

/-- `trigger_listener.TriggerListenerData`: the resolved trigger entries. -/
structure TriggerListenerData where
  on_entries : List RegistryEntry
  off_entries : List RegistryEntry
deriving DecidableEq

/-- `trigger_listener.from_trigger_config`: resolve both trigger id lists;
a missing entity raises `NoEntitySpecifiedError`. -/
def from_trigger_config (reg : Registry) (cfg : TriggerConfig) : Except PyError TriggerListenerData :=
  match from_entity_ids reg cfg.on_ids with
  | Except.error e => Except.error e
  | Except.ok on_entries =>
    match from_entity_ids reg cfg.off_ids with
    | Except.error e => Except.error e
    | Except.ok off_entries =>
      Except.ok { on_entries := on_entries, off_entries := off_entries }

/-- One device entry of the binary_sensor platform configuration. -/
structure BsDeviceConfig where
  name : String
  switch_listeners : TriggerConfig
deriving DecidableEq

/-- `binary_sensor.EltakoBinarySensor`, reduced to its constructor
arguments. -/
structure EltakoBinarySensor where
  unique_id : String
  name : String
  data : TriggerListenerData
deriving DecidableEq

/-- `binary_sensor.from_config`: construct one binary sensor, resolving its
trigger listeners. -/
def bs_from_config (reg : Registry) (device_id : String)
    (cfg : BsDeviceConfig) : Except PyError EltakoBinarySensor :=
  match from_trigger_config reg cfg.switch_listeners with
  | Except.error e => Except.error e
  | Except.ok data =>
    Except.ok { unique_id := device_id, name := cfg.name, data := data }

/-- `binary_sensor.devices_from_config`: the binary_sensor platform builds
its devices directly with `from_config`, without `from_config_or_none`, so
a resolution failure propagates out of the list construction. -/
def bs_devices_from_config (reg : Registry) :
    List (String × BsDeviceConfig) → Except PyError (List EltakoBinarySensor)
  | [] => Except.ok []
  | (device_id, cfg) :: rest =>
    match bs_from_config reg device_id cfg with
    | Except.error e => Except.error e
    | Except.ok entity =>
      match bs_devices_from_config reg rest with
      | Except.error e => Except.error e
      | Except.ok entities => Except.ok (entity :: entities)

/-!  Concrete fixtures used to evaluate the model on sample inputs. -/

/-- A sample resolved selector entry. -/
def entryEx : RegistryEntry :=
  { entity_id := "select.cover1_switch", domain := "select" }

/-- A sample registry holding the selector entity. -/
def regEx : Registry := [("select.cover1_switch", entryEx)]

/-- A sample virtual-switch configuration with the default options:
`BO` under the up key and `BI` under the down key. -/
def switchCfgEx : SwitchConfig :=
  { switch_id := "select.cover1_switch"
    option_up := ButtonOption.BO
    option_down := ButtonOption.BI }

/-- The switch-user data `from_switch_config` produces for `switchCfgEx`. -/
def sudEx : SwitchUserData :=
  { entry := entryEx
    off_action := ButtonOption.BI
    on_action := ButtonOption.BO }

/-- An idle estimator frozen at position `p` (durations 20 s up, 24 s
down). -/
def calcIdleAt (p : ℚ) : TravelCalculator :=
  { travel_time_up := 20
    travel_time_down := 24
    position := p
    direction := TravelDirection.stop
    start_time := none
    start_position := 0
    target_position := none }

/-- An estimator traveling down since time 0 from position `p`. -/
def calcClosingFrom (p : ℚ) : TravelCalculator :=
  { travel_time_up := 20
    travel_time_down := 24
    position := p
    direction := TravelDirection.down
    start_time := some 0
    start_position := p
    target_position := none }

/-- A cover state around a main estimator, an optional tilt estimator, no
active subscription and a never-assigned last-toggle attribute. -/
def coverWith (tc : TravelCalculator) (tilt : Option TravelCalculator) : CoverState :=
  { travel_calc := tc
    tilt_calc := tilt
    unsub := none
    nextHandle := 0
    liveSubs := []
    lastToggleOpen := none
    switch_user := sudEx }

/-- A cover idle halfway (internal position 50) with an idle tilt at 50. -/
def coverMid : CoverState := coverWith (calcIdleAt 50) (some (calcIdleAt 50))

/-- A cover idle and fully open (internal position 0), no tilt. -/
def coverAt0 : CoverState := coverWith (calcIdleAt 0) none

/-- A cover idle halfway whose tilt estimator sits at internal position
0. -/
def coverTiltZero : CoverState := coverWith (calcIdleAt 50) (some (calcIdleAt 0))

/-- A cover whose main estimator is traveling down, no tilt. -/
def coverClosing : CoverState := coverWith (calcClosingFrom 0) none

/-- The state `async_open_cover` reaches from `coverMid` before issuing its
pulse: upward travel started at time 0, tick loop armed, tilt set to 0. -/
def coverMidOpened : CoverState :=
  updateTiltBeforeTravel CoverCommand.open_cover
    (startAutoUpdater { coverMid with travel_calc := coverMid.travel_calc.start_travel_up 0 })

/-- A registry for the binary_sensor example: both trigger entities of the
well-configured device exist. -/
def regC9 : Registry :=
  [("binary_sensor.good_on",
    { entity_id := "binary_sensor.good_on", domain := "binary_sensor" }),
   ("binary_sensor.good_off",
    { entity_id := "binary_sensor.good_off", domain := "binary_sensor" })]

/-- A binary_sensor device whose on-trigger entity is missing from the
registry. -/
def bsCfgFail : BsDeviceConfig :=
  { name := "Bad"
    switch_listeners :=
      { on_ids := ["binary_sensor.missing"]
        off_ids := ["binary_sensor.good_off"] } }

/-- A binary_sensor device whose trigger entities all resolve. -/
def bsCfgGood : BsDeviceConfig :=
  { name := "Good"
    switch_listeners :=
      { on_ids := ["binary_sensor.good_on"]
        off_ids := ["binary_sensor.good_off"] } }

/-- Sample listener data: one on-entry and one off-entry. -/
def listenerDataEx : SwitchListenerData :=
  { on_entries := [{ entity_id := "binary_sensor.cover1_bi_pressed", domain := "binary_sensor" }]
    off_entries := [{ entity_id := "binary_sensor.cover1_bo_pressed", domain := "binary_sensor" }] }

/-- Listener callbacks wired (both stored by `async_added_to_hass`). -/
def callbacksEx : ListenerCallbacks := { onSet := true, offSet := true }

/-- A notification: the on-entry transitioned to `on`. -/
def stateOnEx : EntityState :=
  { entity_id := "binary_sensor.cover1_bi_pressed", state := "on" }

/-!  Helper lemmas about the field effects of the cover operations. -/

@[simp]
theorem stopAutoUpdater_travel_calc (s : CoverState) :
    (stopAutoUpdater s).travel_calc = s.travel_calc := by
  unfold stopAutoUpdater; cases s.unsub <;> rfl

@[simp]
theorem stopAutoUpdater_tilt_calc (s : CoverState) :
    (stopAutoUpdater s).tilt_calc = s.tilt_calc := by
  unfold stopAutoUpdater; cases s.unsub <;> rfl

@[simp]
theorem stopAutoUpdater_unsub (s : CoverState) :
    (stopAutoUpdater s).unsub = none := by
  unfold stopAutoUpdater; cases h : s.unsub <;> simp [h]

@[simp]
theorem stopAutoUpdater_lastToggleOpen (s : CoverState) :
    (stopAutoUpdater s).lastToggleOpen = s.lastToggleOpen := by
  unfold stopAutoUpdater; cases s.unsub <;> rfl

@[simp]
theorem stopAutoUpdater_switch_user (s : CoverState) :
    (stopAutoUpdater s).switch_user = s.switch_user := by
  unfold stopAutoUpdater; cases s.unsub <;> rfl

@[simp]
theorem startAutoUpdater_travel_calc (s : CoverState) :
    (startAutoUpdater s).travel_calc = s.travel_calc := by
  unfold startAutoUpdater; cases s.unsub <;> rfl

@[simp]
theorem startAutoUpdater_tilt_calc (s : CoverState) :
    (startAutoUpdater s).tilt_calc = s.tilt_calc := by
  unfold startAutoUpdater; cases s.unsub <;> rfl

@[simp]
theorem startAutoUpdater_lastToggleOpen (s : CoverState) :
    (startAutoUpdater s).lastToggleOpen = s.lastToggleOpen := by
  unfold startAutoUpdater; cases s.unsub <;> rfl

@[simp]
theorem startAutoUpdater_switch_user (s : CoverState) :
    (startAutoUpdater s).switch_user = s.switch_user := by
  unfold startAutoUpdater; cases s.unsub <;> rfl

@[simp]
theorem startAutoUpdater_unsub_isSome (s : CoverState) :
    (startAutoUpdater s).unsub.isSome = true := by
  unfold startAutoUpdater; cases h : s.unsub <;> simp [h]

@[simp]
theorem updateTiltBeforeTravel_travel_calc (cmd : CoverCommand) (s : CoverState) :
    (updateTiltBeforeTravel cmd s).travel_calc = s.travel_calc := by
  unfold updateTiltBeforeTravel; cases s.tilt_calc <;> cases cmd <;> rfl

@[simp]
theorem updateTiltBeforeTravel_unsub (cmd : CoverCommand) (s : CoverState) :
    (updateTiltBeforeTravel cmd s).unsub = s.unsub := by
  unfold updateTiltBeforeTravel; cases s.tilt_calc <;> cases cmd <;> rfl

@[simp]
theorem updateTiltBeforeTravel_lastToggleOpen (cmd : CoverCommand) (s : CoverState) :
    (updateTiltBeforeTravel cmd s).lastToggleOpen = s.lastToggleOpen := by
  unfold updateTiltBeforeTravel; cases s.tilt_calc <;> cases cmd <;> rfl

@[simp]
theorem updateTiltBeforeTravel_switch_user (cmd : CoverCommand) (s : CoverState) :
    (updateTiltBeforeTravel cmd s).switch_user = s.switch_user := by
  unfold updateTiltBeforeTravel; cases s.tilt_calc <;> cases cmd <;> rfl

theorem updateTiltBeforeTravel_open_tilt (s : CoverState) :
    (updateTiltBeforeTravel CoverCommand.open_cover s).tilt_calc =
      s.tilt_calc.map (fun t => t.set_position 0) := by
  unfold updateTiltBeforeTravel; cases h : s.tilt_calc <;> simp [h]

theorem updateTiltBeforeTravel_close_tilt (s : CoverState) :
    (updateTiltBeforeTravel CoverCommand.close_cover s).tilt_calc =
      s.tilt_calc.map (fun t => t.set_position 100) := by
  unfold updateTiltBeforeTravel; cases h : s.tilt_calc <;> simp [h]

@[simp]
theorem start_travel_up_direction (tc : TravelCalculator) (now : ℚ) :
    (tc.start_travel_up now).direction = TravelDirection.up := rfl

@[simp]
theorem start_travel_down_direction (tc : TravelCalculator) (now : ℚ) :
    (tc.start_travel_down now).direction = TravelDirection.down := rfl

@[simp]
theorem stopCalc_direction (tc : TravelCalculator) (now : ℚ) :
    (tc.stopCalc now).direction = TravelDirection.stop := rfl

theorem is_traveling_iff (tc : TravelCalculator) :
    tc.is_traveling = true ↔ tc.direction ≠ TravelDirection.stop := by
  unfold TravelCalculator.is_traveling; cases tc.direction <;> simp

theorem not_traveling_direction (tc : TravelCalculator) :
    tc.is_traveling = false → tc.direction = TravelDirection.stop := by
  unfold TravelCalculator.is_traveling; cases tc.direction <;> simp

theorem set_position_idle_current (tc : TravelCalculator) (p : ℚ)
    (h : tc.direction = TravelDirection.stop) (m : ℚ) :
    (tc.set_position p).current_position m = clampPosition p := by
  unfold TravelCalculator.set_position
  rw [if_pos h]
  unfold TravelCalculator.current_position
  simp [h]

theorem clampPosition_zero : clampPosition 0 = 0 := by
  unfold clampPosition
  rw [min_eq_right (by norm_num : (0:ℚ) ≤ 100), max_self]

theorem stopTravelPart_travel_not_traveling (s : CoverState) (now : ℚ) :
    (stopTravelPart s now).travel_calc.is_traveling = false := by
  unfold stopTravelPart
  by_cases h : s.travel_calc.is_traveling = true
  · rw [if_pos h]
    simp [TravelCalculator.is_traveling]
  · rw [if_neg h]
    simpa using h

@[simp]
theorem stopTravelPart_tilt_calc (s : CoverState) (now : ℚ) :
    (stopTravelPart s now).tilt_calc = s.tilt_calc := by
  unfold stopTravelPart
  by_cases h : s.travel_calc.is_traveling = true <;> simp [h]

@[simp]
theorem stopTravelPart_lastToggleOpen (s : CoverState) (now : ℚ) :
    (stopTravelPart s now).lastToggleOpen = s.lastToggleOpen := by
  unfold stopTravelPart
  by_cases h : s.travel_calc.is_traveling = true <;> simp [h]

@[simp]
theorem stopTravelPart_switch_user (s : CoverState) (now : ℚ) :
    (stopTravelPart s now).switch_user = s.switch_user := by
  unfold stopTravelPart
  by_cases h : s.travel_calc.is_traveling = true <;> simp [h]

theorem stopTravelPart_unsub_of_traveling (s : CoverState) (now : ℚ)
    (h : s.travel_calc.is_traveling = true) :
    (stopTravelPart s now).unsub = none := by
  simp [stopTravelPart, h]

theorem stopTravelPart_of_idle (s : CoverState) (now : ℚ)
    (h : s.travel_calc.is_traveling = false) :
    stopTravelPart s now = s := by
  simp [stopTravelPart, h]

@[simp]
theorem stopTiltPart_travel_calc (s : CoverState) (now : ℚ) :
    (stopTiltPart s now).travel_calc = s.travel_calc := by
  unfold stopTiltPart
  cases htc : s.tilt_calc with
  | none => rfl
  | some t => by_cases ht : t.is_traveling = true <;> simp [ht]

@[simp]
theorem stopTiltPart_lastToggleOpen (s : CoverState) (now : ℚ) :
    (stopTiltPart s now).lastToggleOpen = s.lastToggleOpen := by
  unfold stopTiltPart
  cases htc : s.tilt_calc with
  | none => rfl
  | some t => by_cases ht : t.is_traveling = true <;> simp [ht]

@[simp]
theorem stopTiltPart_switch_user (s : CoverState) (now : ℚ) :
    (stopTiltPart s now).switch_user = s.switch_user := by
  unfold stopTiltPart
  cases htc : s.tilt_calc with
  | none => rfl
  | some t => by_cases ht : t.is_traveling = true <;> simp [ht]

theorem stopTiltPart_tilt_not_traveling (s : CoverState) (now : ℚ) (t2 : TravelCalculator) :
    (stopTiltPart s now).tilt_calc = some t2 → t2.is_traveling = false := by
  unfold stopTiltPart
  cases htc : s.tilt_calc with
  | none =>
    intro he
    rw [htc] at he
    cases he
  | some t =>
    dsimp only
    by_cases ht : t.is_traveling = true
    · simp only [ht, if_true, stopAutoUpdater_tilt_calc]
      intro he
      cases he
      simp [TravelCalculator.is_traveling]
    · rw [if_neg ht]
      intro he
      rw [htc] at he
      cases he
      simpa using ht

theorem stopTiltPart_unsub_of_tilt_traveling (s : CoverState) (now : ℚ)
    (t : TravelCalculator) (htc : s.tilt_calc = some t)
    (ht : t.is_traveling = true) :
    (stopTiltPart s now).unsub = none := by
  simp [stopTiltPart, htc, ht]

theorem stopTiltPart_unsub_preserved (s : CoverState) (now : ℚ) :
    (stopTiltPart s now).unsub = none ∨ (stopTiltPart s now).unsub = s.unsub := by
  unfold stopTiltPart
  cases htc : s.tilt_calc with
  | none => right; rfl
  | some t =>
    by_cases ht : t.is_traveling = true
    · left; simp [ht]
    · right; simp [ht]

theorem handleStop_travel_not_traveling (s : CoverState) (now : ℚ) :
    (handleStop s now).travel_calc.is_traveling = false := by
  unfold handleStop
  rw [stopTiltPart_travel_calc]
  exact stopTravelPart_travel_not_traveling s now

theorem handleStop_tilt_not_traveling (s : CoverState) (now : ℚ) (t2 : TravelCalculator) :
    (handleStop s now).tilt_calc = some t2 → t2.is_traveling = false := by
  unfold handleStop
  exact stopTiltPart_tilt_not_traveling _ now t2

theorem handleStop_lastToggleOpen (s : CoverState) (now : ℚ) :
    (handleStop s now).lastToggleOpen = s.lastToggleOpen := by
  unfold handleStop
  rw [stopTiltPart_lastToggleOpen, stopTravelPart_lastToggleOpen]

theorem handleStop_switch_user (s : CoverState) (now : ℚ) :
    (handleStop s now).switch_user = s.switch_user := by
  unfold handleStop
  rw [stopTiltPart_switch_user, stopTravelPart_switch_user]

theorem handleStop_unsub_none (s : CoverState) (now : ℚ)
    (h : s.travel_calc.is_traveling = true ∨
      ∃ t, s.tilt_calc = some t ∧ t.is_traveling = true) :
    (handleStop s now).unsub = none := by
  unfold handleStop
  rcases h with htr | ⟨t, htc, ht⟩
  · rcases stopTiltPart_unsub_preserved (stopTravelPart s now) now with h2 | h2
    · exact h2
    · rw [h2]
      exact stopTravelPart_unsub_of_traveling s now htr
  · exact stopTiltPart_unsub_of_tilt_traveling (stopTravelPart s now) now t
      (by rw [stopTravelPart_tilt_calc]; exact htc) ht

/-!  Claim theorems. -/

/-- C3: for every device id, switch position and inversion flag, the
synthesized listener entity ids are
`binary_sensor.<device_id>_<position_code><action_code>_pressed`, with
position code `a` for left and `b` for right, action code `o` for the
on-trigger and `i` for the off-trigger when not inverted and swapped when
inverted; in particular, position right with inversion for device `cover1`
yields on-trigger `binary_sensor.cover1_bi_pressed` and off-trigger
`binary_sensor.cover1_bo_pressed`. -/
theorem c3_entity_id_synthesis :
    (to_action_code ActionType.on false = "o") ∧
    (to_action_code ActionType.off false = "i") ∧
    (to_action_code ActionType.on true = "i") ∧
    (to_action_code ActionType.off true = "o") ∧
    (∀ (d : String) (a : ActionType) (inv : Bool),
      to_entity_id d a SwitchPosition.left inv =
        "binary_sensor." ++ d ++ "_" ++ "a" ++ to_action_code a inv ++ "_pressed") ∧
    (∀ (d : String) (a : ActionType) (inv : Bool),
      to_entity_id d a SwitchPosition.right inv =
        "binary_sensor." ++ d ++ "_" ++ "b" ++ to_action_code a inv ++ "_pressed") ∧
    to_entity_pair "cover1" { position := SwitchPosition.right, inverted := true } =
      ("binary_sensor.cover1_bi_pressed", "binary_sensor.cover1_bo_pressed") := by
  refine ⟨rfl, rfl, rfl, rfl, ?_, ?_, ?_⟩
  · intro d a inv
    rfl
  · intro d a inv
    rfl
  · rfl

/-- C7: every actuator pulse issues exactly three `select_option` calls to
the bound selector entity, in the order neutral, the configured action's
value, neutral, and nothing else; `push_on` pulses the configured
on-action, `push_off` the configured off-action. -/
theorem c7_pulse_three_calls :
    ∀ (d : SwitchUserData) (a : ButtonOption),
    (pushSwitch d a).length = 3 ∧
    (pushSwitch d a).map (fun c => c.option) = ["None", a.toStr, "None"] ∧
    (pushSwitch d a).map (fun c => c.service) =
      ["select_option", "select_option", "select_option"] ∧
    (pushSwitch d a).map (fun c => c.domain) =
      [d.entry.domain, d.entry.domain, d.entry.domain] ∧
    (pushSwitch d a).map (fun c => c.entity_id) =
      [d.entry.entity_id, d.entry.entity_id, d.entry.entity_id] ∧
    pushOn d = pushSwitch d d.on_action ∧
    pushOff d = pushSwitch d d.off_action := by
  intro d a
  exact ⟨rfl, rfl, rfl, rfl, rfl, rfl, rfl⟩

/-- C2 (amended): `from_switch_config` binds the configured down option to
`off_action` and the configured up option to `on_action`, and for every
command issued the open command dispatches the pulse of the configured
"push down" option (via `push_off`) while the close command dispatches the
pulse of the configured "push up" option (via `push_on`) — the opposite of
the claimed binding. -/
theorem c2_command_option_binding :
    (∀ (reg : Registry) (cfg : SwitchConfig) (d : SwitchUserData),
      from_switch_config reg cfg = Except.ok d →
      d.off_action = cfg.option_down ∧ d.on_action = cfg.option_up) ∧
    (∀ s : CoverState,
      asyncHandleCommand s CoverCommand.open_cover =
        Except.ok (pushSwitch s.switch_user s.switch_user.off_action) ∧
      asyncHandleCommand s CoverCommand.close_cover =
        Except.ok (pushSwitch s.switch_user s.switch_user.on_action)) := by
  constructor
  · intro reg cfg d h
    unfold from_switch_config at h
    cases hfe : from_entity_id reg cfg.switch_id with
    | error e =>
      rw [hfe] at h
      cases h
    | ok entry =>
      rw [hfe] at h
      injection h with h2
      rw [← h2]
      exact ⟨rfl, rfl⟩
  · intro s
    exact ⟨rfl, rfl⟩

/-- C2 counterexample: with the selector resolved and the default options
(`BO` configured as the up option, `BI` as the down option), the open
command's pulse asserts the down option `BI`, not the up option `BO`, and
the close command's pulse asserts the up option `BO`. -/
theorem c2_open_uses_down_option_cex :
    from_switch_config regEx switchCfgEx = Except.ok sudEx ∧
    coverMid.switch_user = sudEx ∧
    asyncHandleCommand coverMid CoverCommand.open_cover =
      Except.ok (pushSwitch sudEx switchCfgEx.option_down) ∧
    asyncHandleCommand coverMid CoverCommand.open_cover ≠
      Except.ok (pushSwitch sudEx switchCfgEx.option_up) ∧
    asyncHandleCommand coverMid CoverCommand.close_cover =
      Except.ok (pushSwitch sudEx switchCfgEx.option_up) := by
  refine ⟨by decide, by decide, by decide, by decide, by decide⟩

/-- C2 witness: the amended theorem instantiated at the sample
configuration and cover. -/
theorem c2_command_option_binding_witness :
    (sudEx.off_action = switchCfgEx.option_down ∧
      sudEx.on_action = switchCfgEx.option_up) ∧
    asyncHandleCommand coverMid CoverCommand.open_cover =
      Except.ok (pushSwitch coverMid.switch_user coverMid.switch_user.off_action) :=
  ⟨c2_command_option_binding.1 regEx switchCfgEx sudEx (by decide),
   (c2_command_option_binding.2 coverMid).1⟩

/-- C6: a state-change notification invokes the on-callback iff the new
state value is exactly `on` and the transitioning entity belongs to the
on-set, invokes the off-callback iff the value is `on` and the entity
belongs to the off-set, and a notification without a new state invokes
neither (the dispatch is a total function: no error is raised for entities
in neither set). -/
theorem c6_listener_dispatch :
    ∀ (d : SwitchListenerData) (cb : ListenerCallbacks) (st : EntityState),
    cb.onSet = true → cb.offSet = true →
    ((switchStateChangeListener d cb (some st)).1 = true ↔
      st.entity_id ∈ toEntityIds d.on_entries ∧ st.state = "on") ∧
    ((switchStateChangeListener d cb (some st)).2 = true ↔
      st.entity_id ∈ toEntityIds d.off_entries ∧ st.state = "on") ∧
    switchStateChangeListener d cb none = (false, false) := by
  intro d cb st hon hoff
  refine ⟨?_, ?_, rfl⟩
  · simp [switchStateChangeListener, stateChangedForEntities, hon, List.elem_iff]
  · simp [switchStateChangeListener, stateChangedForEntities, hoff, List.elem_iff]

/-- C6 witness: the dispatch theorem instantiated at a wired listener, a
notification of the on-entry transitioning to `on`, and the missing-state
notification. -/
theorem c6_listener_dispatch_witness :
    (switchStateChangeListener listenerDataEx callbacksEx (some stateOnEx)).1 = true ∧
    (switchStateChangeListener listenerDataEx callbacksEx (some stateOnEx)).2 = false ∧
    switchStateChangeListener listenerDataEx callbacksEx none = (false, false) := by
  have h := c6_listener_dispatch listenerDataEx callbacksEx stateOnEx (by decide) (by decide)
  refine ⟨h.1.mpr (by decide), ?_, h.2.2⟩
  by_contra hc
  rw [Bool.not_eq_false] at hc
  have h2 := h.2.1.mp hc
  revert h2
  decide

/-- C1: the stop command of `_async_handle_command` reads the instance
attribute `_cover_is_last_toggle_direction_open`, which is never assigned
anywhere in the integration — the constructor leaves it unset and no
operation writes it — so every stop command raises `AttributeError`
instead of issuing the pulse opposite to the last toggle direction and
recording it. -/
theorem c1_stop_pulse_attribute_bug :
    (∀ (sud : SwitchUserData) (tt : TimeData) (tiltt : Option TimeData),
      (mkEltakoCover sud tt tiltt).lastToggleOpen = none) ∧
    (∀ (s : CoverState) (now : ℚ),
      (handleStop s now).lastToggleOpen = s.lastToggleOpen) ∧
    (∀ (s : CoverState) (now : ℚ),
      (onSwitchOn s now).lastToggleOpen = s.lastToggleOpen) ∧
    (∀ (s : CoverState) (now : ℚ),
      (onSwitchOff s now).lastToggleOpen = s.lastToggleOpen) ∧
    (∀ (s : CoverState) (now : ℚ) (s2 : CoverState) (calls : List ServiceCall),
      asyncOpenCover s now = Except.ok (s2, calls) →
      s2.lastToggleOpen = s.lastToggleOpen) ∧
    (∀ (s : CoverState) (now : ℚ) (s2 : CoverState) (calls : List ServiceCall),
      asyncCloseCover s now = Except.ok (s2, calls) →
      s2.lastToggleOpen = s.lastToggleOpen) ∧
    (∀ (s : CoverState) (now : ℚ), s.lastToggleOpen = none →
      asyncStopCover s now = Except.error PyError.attributeError) := by
  refine ⟨?_, handleStop_lastToggleOpen, ?_, ?_, ?_, ?_, ?_⟩
  · intro sud tt tiltt
    rfl
  · intro s now
    unfold onSwitchOn
    split
    · exact handleStop_lastToggleOpen s now
    · split
      · simp
      · rfl
  · intro s now
    unfold onSwitchOff
    split
    · exact handleStop_lastToggleOpen s now
    · split
      · simp
      · rfl
  · intro s now s2 calls h
    unfold asyncOpenCover at h
    dsimp only at h
    by_cases hcp : 0 < s.travel_calc.current_position now
    · rw [if_pos hcp] at h
      simp only [asyncHandleCommand] at h
      injection h with h2
      rw [(Prod.mk.injEq _ _ _ _).mp h2 |>.1.symm]
      simp
    · rw [if_neg hcp] at h
      injection h with h2
      rw [(Prod.mk.injEq _ _ _ _).mp h2 |>.1.symm]
  · intro s now s2 calls h
    unfold asyncCloseCover at h
    dsimp only at h
    by_cases hcp : s.travel_calc.current_position now < 100
    · rw [if_pos hcp] at h
      simp only [asyncHandleCommand] at h
      injection h with h2
      rw [(Prod.mk.injEq _ _ _ _).mp h2 |>.1.symm]
      simp
    · rw [if_neg hcp] at h
      injection h with h2
      rw [(Prod.mk.injEq _ _ _ _).mp h2 |>.1.symm]
  · intro s now h
    unfold asyncStopCover asyncHandleCommand
    rw [h]

/-- C1 witness: at a concrete cover (fresh attribute state, estimator
halfway), an external event preserves the unset attribute and the stop
command raises `AttributeError`. -/
theorem c1_stop_pulse_attribute_bug_witness :
    (onSwitchOn coverMid 0).lastToggleOpen = coverMid.lastToggleOpen ∧
    asyncStopCover coverMid 0 = Except.error PyError.attributeError :=
  ⟨c1_stop_pulse_attribute_bug.2.2.1 coverMid 0,
   c1_stop_pulse_attribute_bug.2.2.2.2.2.2 coverMid 0 (by decide)⟩

/-- C8: at most one tick-loop subscription exists at any time — a fresh
cover satisfies the subscription invariant (the live subscriptions are
exactly the recorded handle), `start_auto_updater` is a no-op while a
subscription is active and otherwise creates the single subscription,
`stop_auto_updater` cancels the active subscription exactly once and is a
no-op when none is active, and the invariant (hence at most one live
subscription) is preserved by every sequence of start/stop calls. -/
theorem c8_single_subscription :
    (∀ (sud : SwitchUserData) (tt : TimeData) (tiltt : Option TimeData),
      SubsInv (mkEltakoCover sud tt tiltt)) ∧
    (∀ s : CoverState, s.unsub.isSome = true → startAutoUpdater s = s) ∧
    (∀ s : CoverState, s.unsub = none → stopAutoUpdater s = s) ∧
    (∀ s : CoverState, SubsInv s →
      SubsInv (startAutoUpdater s) ∧ SubsInv (stopAutoUpdater s)) ∧
    (∀ (s : CoverState) (h : Nat), SubsInv s → s.unsub = some h →
      (stopAutoUpdater s).unsub = none ∧ (stopAutoUpdater s).liveSubs = []) ∧
    (∀ (s : CoverState) (ops : List SubOp), SubsInv s →
      SubsInv (applySubOps s ops) ∧ (applySubOps s ops).liveSubs.length ≤ 1) := by
  have hstart : ∀ s : CoverState, SubsInv s → SubsInv (startAutoUpdater s) := by
    intro s hs
    unfold startAutoUpdater
    cases hu : s.unsub with
    | none =>
      unfold SubsInv at hs ⊢
      rw [hu] at hs
      simp [hs]
    | some h =>
      unfold SubsInv at hs ⊢
      rw [hu] at hs
      simp [hu, hs]
  have hstop : ∀ s : CoverState, SubsInv s → SubsInv (stopAutoUpdater s) := by
    intro s hs
    unfold stopAutoUpdater
    cases hu : s.unsub with
    | none =>
      unfold SubsInv at hs ⊢
      rw [hu] at hs
      simp [hu, hs]
    | some h =>
      unfold SubsInv at hs ⊢
      rw [hu] at hs
      simp [hs]
  have hlen : ∀ s : CoverState, SubsInv s → s.liveSubs.length ≤ 1 := by
    intro s hs
    unfold SubsInv at hs
    rw [hs]
    cases s.unsub <;> simp
  refine ⟨?_, ?_, ?_, fun s hs => ⟨hstart s hs, hstop s hs⟩, ?_, ?_⟩
  · intro sud tt tiltt
    rfl
  · intro s h
    unfold startAutoUpdater
    cases hu : s.unsub with
    | none => rw [hu] at h; cases h
    | some h2 => rfl
  · intro s h
    unfold stopAutoUpdater
    rw [h]
  · intro s h hs hu
    unfold stopAutoUpdater
    rw [hu]
    unfold SubsInv at hs
    rw [hu] at hs
    simp [hs]
  · intro s ops
    induction ops generalizing s with
    | nil => intro hs; exact ⟨hs, hlen s hs⟩
    | cons op rest ih =>
      intro hs
      unfold applySubOps
      cases op with
      | start => exact ih (startAutoUpdater s) (hstart s hs)
      | stop => exact ih (stopAutoUpdater s) (hstop s hs)

/-- C8 witness: the invariant theorem instantiated at the halfway cover and
a concrete start/start/stop/stop sequence. -/
theorem c8_single_subscription_witness :
    startAutoUpdater (startAutoUpdater coverMid) = startAutoUpdater coverMid ∧
    stopAutoUpdater coverMid = coverMid ∧
    SubsInv (applySubOps coverMid
      [SubOp.start, SubOp.start, SubOp.stop, SubOp.stop]) ∧
    (applySubOps coverMid
      [SubOp.start, SubOp.start, SubOp.stop, SubOp.stop]).liveSubs.length ≤ 1 :=
  ⟨c8_single_subscription.2.1 (startAutoUpdater coverMid) (by decide),
   c8_single_subscription.2.2.1 coverMid (by decide),
   (c8_single_subscription.2.2.2.2.2 coverMid
     [SubOp.start, SubOp.start, SubOp.stop, SubOp.stop] (by decide)).1,
   (c8_single_subscription.2.2.2.2.2 coverMid
     [SubOp.start, SubOp.start, SubOp.stop, SubOp.stop] (by decide)).2⟩

/-- C9 (amended): a device whose resolution raises the not-found error is
omitted and all remaining devices are still constructed wherever device
lists are built through `config.devices_from_config` — the cover and
switch platforms; the binary_sensor platform builds its device list
directly with its own `devices_from_config` and there the failure
propagates out of the list construction. -/
theorem c9_skip_and_continue :
    ∀ (C E : Type) (f : Registry → String → C → Except PyError E)
      (reg : Registry) (devs : List (String × C)),
    (∀ (device_id : String) (cfg : C) (e : PyError),
      f reg device_id cfg = Except.error e → e = PyError.noEntitySpecified) →
    devices_from_config f reg devs =
      Except.ok (devs.filterMap (fun p => (f reg p.1 p.2).toOption)) := by
  intro C E f reg devs hf
  induction devs with
  | nil => rfl
  | cons dev rest ih =>
    obtain ⟨device_id, cfg⟩ := dev
    unfold devices_from_config from_config_or_none
    cases hd : f reg device_id cfg with
    | ok entity => simp [ih, hd, Except.toOption]
    | error e =>
      have he := hf device_id cfg e hd
      subst he
      simp [ih, hd, Except.toOption]

/-- C9 witness: the skip-and-continue theorem instantiated at a builder
that fails (with the not-found error) for one device id out of three. -/
theorem c9_skip_and_continue_witness :
    devices_from_config
      (fun (_ : Registry) (device_id : String) (_ : Unit) =>
        if device_id = "bad" then
          (Except.error PyError.noEntitySpecified : Except PyError String)
        else
          Except.ok device_id)
      [] [("d1", ()), ("bad", ()), ("d2", ())] = Except.ok ["d1", "d2"] := by
  rw [c9_skip_and_continue Unit String
    (fun (_ : Registry) (device_id : String) (_ : Unit) =>
      if device_id = "bad" then
        (Except.error PyError.noEntitySpecified : Except PyError String)
      else
        Except.ok device_id)
    [] [("d1", ()), ("bad", ()), ("d2", ())]
    (by
      intro device_id cfg e h
      dsimp only at h
      by_cases hb : device_id = "bad"
      · rw [if_pos hb] at h
        injection h with h2
        exact h2.symm
      · rw [if_neg hb] at h
        cases h)]
  rfl

/-- C9 counterexample: on the binary_sensor platform, one device with an
unresolvable trigger entity makes the whole device-list construction
propagate `NoEntitySpecifiedError`, even though the other configured
device resolves on its own. -/
theorem c9_binary_sensor_propagates_cex :
    bs_devices_from_config regC9 [("d1", bsCfgFail), ("d2", bsCfgGood)] =
      Except.error PyError.noEntitySpecified ∧
    bs_from_config regC9 "d2" bsCfgGood =
      Except.ok
        { unique_id := "d2"
          name := "Good"
          data :=
            { on_entries :=
                [{ entity_id := "binary_sensor.good_on", domain := "binary_sensor" }]
              off_entries :=
                [{ entity_id := "binary_sensor.good_off", domain := "binary_sensor" }] } } := by
  exact ⟨by decide, by decide⟩

/-- C4: `async_open_cover` is an exact no-op (state unchanged, no calls)
when the internal travel position is 0; otherwise the result state has
upward travel in progress, the tick loop armed, and — when a tilt
estimator is configured — the tilt estimator updated by a direct
`set_position 0`, so that an idle tilt estimator reads position 0 at every
subsequent time, independent of its travel durations. -/
theorem c4_open_cover_behavior :
    ∀ (s : CoverState) (now : ℚ),
    (s.travel_calc.current_position now = 0 →
      asyncOpenCover s now = Except.ok (s, [])) ∧
    (0 < s.travel_calc.current_position now →
      (∃ p, asyncOpenCover s now = Except.ok p) ∧
      ∀ (s2 : CoverState) (calls : List ServiceCall),
        asyncOpenCover s now = Except.ok (s2, calls) →
        s2.travel_calc.is_traveling = true ∧
        s2.travel_calc.direction = TravelDirection.up ∧
        s2.unsub.isSome = true ∧
        s2.tilt_calc = s.tilt_calc.map (fun t => t.set_position 0) ∧
        (∀ t, s.tilt_calc = some t → t.is_traveling = false →
          ∀ t2, s2.tilt_calc = some t2 →
            ∀ m : ℚ, t2.current_position m = 0)) := by
  intro s now
  constructor
  · intro h0
    unfold asyncOpenCover
    dsimp only
    rw [h0, if_neg (lt_irrefl (0 : ℚ))]
  · intro hcp
    unfold asyncOpenCover
    dsimp only
    rw [if_pos hcp]
    simp only [asyncHandleCommand]
    refine ⟨⟨_, rfl⟩, ?_⟩
    intro s2 calls h
    injection h with h2
    have hs2 := ((Prod.mk.injEq _ _ _ _).mp h2).1.symm
    subst hs2
    have htilt :
        (updateTiltBeforeTravel CoverCommand.open_cover
          (startAutoUpdater
            { s with travel_calc := s.travel_calc.start_travel_up now })).tilt_calc =
          s.tilt_calc.map (fun t => t.set_position 0) := by
      rw [updateTiltBeforeTravel_open_tilt, startAutoUpdater_tilt_calc]
    refine ⟨?_, ?_, ?_, htilt, ?_⟩
    · simp [TravelCalculator.is_traveling]
    · simp
    · simp
    · intro t ht hidle t2 ht2 m
      rw [htilt, ht] at ht2
      have ht3 := Option.some.inj ht2
      rw [← ht3, set_position_idle_current t 0 (not_traveling_direction t hidle) m,
        clampPosition_zero]

/-- C4 witness: the no-op branch at a fully open cover and the acting
branch at a halfway cover with an idle tilt estimator. -/
theorem c4_open_cover_behavior_witness :
    asyncOpenCover coverAt0 0 = Except.ok (coverAt0, []) ∧
    coverMidOpened.travel_calc.direction = TravelDirection.up ∧
    coverMidOpened.unsub.isSome = true ∧
    coverMidOpened.tilt_calc = coverMid.tilt_calc.map (fun t => t.set_position 0) := by
  have h1 := (c4_open_cover_behavior coverAt0 0).1 (by decide)
  have h2 := ((c4_open_cover_behavior coverMid 0).2 (by decide)).2 coverMidOpened
    (pushOff sudEx) (by decide)
  exact ⟨h1, h2.2.1, h2.2.2.1, h2.2.2.2.1⟩

/-- The closing state implies one of the estimators is traveling. -/
theorem isClosing_cases (s : CoverState) :
    s.isClosing = true →
    s.travel_calc.is_traveling = true ∨
      ∃ t, s.tilt_calc = some t ∧ t.is_traveling = true := by
  unfold CoverState.isClosing
  cases htc : s.tilt_calc with
  | none =>
    intro h
    simp only [Bool.or_eq_true, Bool.and_eq_true] at h
    rcases h with ⟨h1, _⟩ | h1
    · exact Or.inl h1
    · cases h1
  | some t =>
    intro h
    simp only [Bool.or_eq_true, Bool.and_eq_true] at h
    rcases h with ⟨h1, _⟩ | ⟨h1, _⟩
    · exact Or.inl h1
    · exact Or.inr ⟨t, rfl, h1⟩

/-- The HA state is `closing` only when `is_closing` holds. -/
theorem coverHaState_closing_isClosing (s : CoverState) (now : ℚ) :
    coverHaState s now = HaCoverState.closing → s.isClosing = true := by
  unfold coverHaState
  intro h
  by_cases h1 : s.isOpening = true
  · rw [if_pos h1] at h
    cases h
  · rw [if_neg h1] at h
    by_cases h2 : s.isClosing = true
    · exact h2
    · rw [if_neg h2] at h
      by_cases h3 : s.travel_calc.is_closed now = true
      · rw [if_pos h3] at h
        cases h
      · rw [if_neg h3] at h
        cases h

/-- C5 (amended): the external on-event handler treats the closing state as
stop (both estimators end up idle and the tick-loop subscription is
cancelled); from the opening state or the HA open state — idle and not
fully closed, which covers both the fully open and the partially open
cover — it starts downward travel, arms the tick loop and applies the
close tilt pre-adjustment; in the remaining state (idle fully closed) it
does nothing. -/
theorem c5_on_switch_on_behavior :
    ∀ (s : CoverState) (now : ℚ),
    (coverHaState s now = HaCoverState.closing →
      onSwitchOn s now = handleStop s now ∧
      (onSwitchOn s now).travel_calc.is_traveling = false ∧
      (∀ t2, (onSwitchOn s now).tilt_calc = some t2 → t2.is_traveling = false) ∧
      (onSwitchOn s now).unsub = none) ∧
    ((coverHaState s now = HaCoverState.opening ∨
        coverHaState s now = HaCoverState.opened) →
      (onSwitchOn s now).travel_calc.direction = TravelDirection.down ∧
      (onSwitchOn s now).travel_calc.is_traveling = true ∧
      (onSwitchOn s now).unsub.isSome = true ∧
      (onSwitchOn s now).tilt_calc = s.tilt_calc.map (fun t => t.set_position 100)) ∧
    (coverHaState s now = HaCoverState.closed → onSwitchOn s now = s) := by
  intro s now
  refine ⟨?_, ?_, ?_⟩
  · intro h
    have hrw : onSwitchOn s now = handleStop s now := by
      unfold onSwitchOn
      rw [if_pos h]
    refine ⟨hrw, ?_, ?_, ?_⟩
    · rw [hrw]
      exact handleStop_travel_not_traveling s now
    · rw [hrw]
      exact handleStop_tilt_not_traveling s now
    · rw [hrw]
      exact handleStop_unsub_none s now
        (isClosing_cases s (coverHaState_closing_isClosing s now h))
  · intro h
    have hne : ¬coverHaState s now = HaCoverState.closing := by
      rcases h with h | h <;> (rw [h]; intro hc; cases hc)
    have hrw : onSwitchOn s now =
        updateTiltBeforeTravel CoverCommand.close_cover
          (startAutoUpdater
            { s with travel_calc := s.travel_calc.start_travel_down now }) := by
      unfold onSwitchOn
      rw [if_neg hne, if_pos h]
    rw [hrw]
    refine ⟨?_, ?_, ?_, ?_⟩
    · simp
    · simp [TravelCalculator.is_traveling]
    · simp
    · rw [updateTiltBeforeTravel_close_tilt, startAutoUpdater_tilt_calc]
  · intro h
    unfold onSwitchOn
    rw [h]
    rw [if_neg (by intro hc; cases hc), if_neg ?_]
    intro hc
    rcases hc with hc | hc <;> cases hc

/-- C5 counterexample: an idle, partially open cover (internal position 50,
neither opening nor closing nor fully closed — the spec's idle-partial
state) is not left alone by the on-event handler: it starts downward
travel. -/
theorem c5_idle_partial_cex :
    coverMid.travel_calc.is_traveling = false ∧
    coverMid.travel_calc.current_position 0 = 50 ∧
    ((0 : ℚ) < 50 ∧ (50 : ℚ) < 100) ∧
    coverHaState coverMid 0 = HaCoverState.opened ∧
    onSwitchOn coverMid 0 ≠ coverMid ∧
    (onSwitchOn coverMid 0).travel_calc.direction = TravelDirection.down := by
  exact ⟨by decide, by decide, ⟨by decide, by decide⟩, by decide, by decide, by decide⟩

/-- C5 witness: the amended theorem instantiated at a closing cover and at
the idle halfway cover. -/
theorem c5_on_switch_on_behavior_witness :
    coverHaState coverClosing 0 = HaCoverState.closing ∧
    (onSwitchOn coverClosing 0).travel_calc.is_traveling = false ∧
    (onSwitchOn coverClosing 0).unsub = none ∧
    coverHaState coverMid 0 = HaCoverState.opened ∧
    (onSwitchOn coverMid 0).travel_calc.direction = TravelDirection.down := by
  have h1 := (c5_on_switch_on_behavior coverClosing 0).1 (by decide)
  have h2 := (c5_on_switch_on_behavior coverMid 0).2.1 (Or.inr (by decide))
  exact ⟨by decide, h1.2.1, h1.2.2.2, by decide, h2.1⟩

/-- C10: with a tilt estimator configured, the public tilt position is the
computed value tested for truthiness — an internal tilt position of
exactly 0 (user-facing fully open, 100) yields `None` and consequently
`supported_features` omits the set-tilt-position capability in that state,
while every non-zero internal position `p` yields `100 - p` (and the
capability is offered). -/
theorem c10_tilt_truthiness :
    ∀ (s : CoverState) (now : ℚ) (t : TravelCalculator),
    s.tilt_calc = some t →
    (t.current_position now = 0 →
      currentCoverTiltPosition s now = none ∧
      CoverFeature.SET_TILT_POSITION ∉ supportedFeatures s now) ∧
    (t.current_position now ≠ 0 →
      currentCoverTiltPosition s now = some (100 - t.current_position now) ∧
      CoverFeature.SET_TILT_POSITION ∈ supportedFeatures s now) := by
  intro s now t ht
  constructor
  · intro h0
    have hctp : currentCoverTiltPosition s now = none := by
      unfold currentCoverTiltPosition
      rw [ht]
      dsimp only
      rw [if_pos h0]
    refine ⟨hctp, ?_⟩
    simp only [supportedFeatures, hctp, CoverState.hasTiltSupport, ht,
      currentCoverPosition, Option.isSome_some, if_true]
    decide
  · intro hne
    have hctp : currentCoverTiltPosition s now =
        some (100 - t.current_position now) := by
      unfold currentCoverTiltPosition
      rw [ht]
      dsimp only
      rw [if_neg hne]
    refine ⟨hctp, ?_⟩
    simp only [supportedFeatures, hctp, CoverState.hasTiltSupport, ht,
      currentCoverPosition, Option.isSome_some, if_true]
    simp [List.mem_append]

/-- C10 witness: a cover whose tilt estimator sits at internal 0 reports no
tilt position and omits the set-tilt capability; at internal 50 it reports
the user-facing 100 - 50 and offers the capability. -/
theorem c10_tilt_truthiness_witness :
    currentCoverTiltPosition coverTiltZero 0 = none ∧
    CoverFeature.SET_TILT_POSITION ∉ supportedFeatures coverTiltZero 0 ∧
    currentCoverTiltPosition coverMid 0 = some (100 - 50) ∧
    CoverFeature.SET_TILT_POSITION ∈ supportedFeatures coverMid 0 := by
  have h1 := (c10_tilt_truthiness coverTiltZero 0 (calcIdleAt 0) rfl).1 (by decide)
  have h2 := (c10_tilt_truthiness coverMid 0 (calcIdleAt 50) rfl).2 (by decide)
  exact ⟨h1.1, h1.2, h2.1, h2.2⟩

end Eltako
